import Mathlib

/-!
Verification of the embeddable chat widget (`src/components/ChatBot.tsx`).

The widget keeps an in-memory conversation store (a list of `Message`
records), a draft input buffer, a loading flag and visibility flags.  The
submission handler `handleSendMessage` guards on a non-whitespace draft and
on no send being in flight, appends the user message, and then either
short-circuits with a configuration warning (no credential), or issues one
completion request built from the pre-append transcript plus the new text,
reducing the outcome (reply content, empty content, or transport failure)
to at most one appended assistant message.

The embedding below follows the TypeScript source line by line.  The
completion call itself is external I/O; its outcome is passed in as a
`SendResult` value, and the request the handler would issue is returned as
data so that the payload-shape claims can be stated.  Timestamps are
abstract `Nat` instants supplied by the caller.
-/

namespace ChatBot

/-- A conversation record: `interface Message` in the source. -/
structure Message where
  text : String
  isBot : Bool
  timestamp : Nat
  deriving Repr, DecidableEq

/-- The fixed system instruction `SYSTEM_PROMPT`. -/
def SYSTEM_PROMPT : String :=
  "You are an expert educational AI tutor. You can help with any subject including Mathematics, Physics, Chemistry, Biology, History, Literature, Computer Science, and more. Your responses should be:\n1. Educational and accurate\n2. Clear and easy to understand\n3. Concise but thorough\n4. Include examples when helpful\n5. Encourage critical thinking\n\nIf a question is unclear, ask for clarification. If a topic is complex, break it down into simpler parts."

/-- The greeting seeded at mount when a credential is configured. -/
def greetingText : String :=
  "Hi! I\'m your AI learning assistant. I can help you with any subject. What would you like to learn about?"

/-- The warning seeded at mount when no credential is configured. -/
def seedWarningText : String :=
  "⚠️ OpenAI API key is not configured. Please add your API key to the .env file to enable AI responses."

/-- The configuration-warning reply appended per submission when no
credential is configured. -/
def noKeyReplyText : String :=
  "⚠️ I can\'t respond right now because the OpenAI API key is not configured. Please add your API key to continue."

/-- The fixed apologetic fallback appended when the transport fails. -/
def fallbackText : String :=
  "I\'m sorry, I\'m having trouble connecting right now. Please try again in a moment."

/-- JavaScript `String.prototype.trim`: the string with leading and
trailing whitespace removed (used by the guard `!message.trim()`). -/
def jsTrim (s : String) : String :=
  String.mk (((s.data.dropWhile Char.isWhitespace).reverse.dropWhile Char.isWhitespace).reverse)

/-- One `{role, content}` record of the outbound payload. -/
structure RequestMessage where
  role : String
  content : String
  deriving Repr, DecidableEq

/-- The outbound completion request: the ordered payload records and the
fixed generation parameters passed to `openai.chat.completions.create`. -/
structure CompletionRequest where
  messages : List RequestMessage
  model : String
  temperature : ℚ
  max_tokens : Nat
  deriving Repr, DecidableEq

/-- Mapping of a store record to a payload record:
`msg => ({role: msg.isBot ? 'assistant' : 'user', content: msg.text})`. -/
def toRequestMessage (msg : Message) : RequestMessage :=
  { role := if msg.isBot then "assistant" else "user", content := msg.text }

/-- The request object built inside `handleSendMessage`: the fixed system
instruction, the mapped prior transcript, then the new user text. -/
def buildRequest (prior : List Message) (newText : String) : CompletionRequest :=
  { messages :=
      { role := "system", content := SYSTEM_PROMPT } ::
        (prior.map toRequestMessage ++ [{ role := "user", content := newText }]),
    model := "gpt-3.5-turbo",
    temperature := 0.7,
    max_tokens := 500 }

/-- Outcome of the awaited completion call: a response whose first choice
carries optional content, or any exception from the transport layer. -/
inductive SendResult where
  | success (content : Option String)
  | failure (err : String)
  deriving Repr, DecidableEq

/-- The widget state: the `useState` hooks of the component. -/
structure ChatState where
  isOpen : Bool
  isMinimized : Bool
  message : String
  isLoading : Bool
  messages : List Message
  isApiKeySet : Bool
  deriving Repr, DecidableEq

/-- The seeded assistant record installed by the mount effect. -/
def seedMessage (isApiKeySet : Bool) (t : Nat) : Message :=
  { text := if isApiKeySet then greetingText else seedWarningText,
    isBot := true,
    timestamp := t }

/-- The state right after mount: all flags at their `useState` initial
values and the store holding exactly the seeded message. -/
def mountChatBot (isApiKeySet : Bool) (t : Nat) : ChatState :=
  { isOpen := false,
    isMinimized := false,
    message := "",
    isLoading := false,
    messages := [seedMessage isApiKeySet t],
    isApiKeySet := isApiKeySet }

/-- The submission handler `handleSendMessage`, with the awaited completion outcome supplied as
`result` and fresh timestamps for the user and assistant records.  Returns
the post-turn state and the request issued (`none` when the guard rejects
the submission or the no-credential path short-circuits). -/
def handleSendMessage (s : ChatState) (result : SendResult) (tUser tBot : Nat) :
    ChatState × Option CompletionRequest :=
  if jsTrim s.message = "" ∨ s.isLoading = true then (s, none)
  else
    let userMessage : Message := { text := s.message, isBot := false, timestamp := tUser }
    let s1 : ChatState := { s with messages := s.messages ++ [userMessage], message := "" }
    if s.isApiKeySet = false then
      ({ s1 with messages :=
          s1.messages ++ [{ text := noKeyReplyText, isBot := true, timestamp := tBot }] },
        none)
    else
      let req := buildRequest s.messages s.message
      let s2 : ChatState := { s1 with isLoading := true }
      let s3 : ChatState :=
        match result with
        | SendResult.success (some botResponse) =>
            { s2 with messages :=
                s2.messages ++ [{ text := botResponse, isBot := true, timestamp := tBot }] }
        | SendResult.success none => s2
        | SendResult.failure _ =>
            { s2 with messages :=
                s2.messages ++ [{ text := fallbackText, isBot := true, timestamp := tBot }] }
      ({ s3 with isLoading := false }, some req)

/-- A visibility interaction on the widget chrome. -/
inductive UIEvent where
  | openChat
  | closeChat
  | toggleMinimize
  deriving Repr, DecidableEq

/-- The visibility handlers: open button, close button, minimize toggle. -/
def handleUIEvent (s : ChatState) (e : UIEvent) : ChatState :=
  match e with
  | UIEvent.openChat => { s with isOpen := true }
  | UIEvent.closeChat => { s with isOpen := false }
  | UIEvent.toggleMinimize => { s with isMinimized := !s.isMinimized }

/-- The input `onChange` handler: replace the draft buffer. -/
def setDraft (s : ChatState) (text : String) : ChatState :=
  { s with message := text }

/-- Any event the mounted widget can process. -/
inductive Event where
  | ui (e : UIEvent)
  | draft (text : String)
  | submit (result : SendResult) (tUser tBot : Nat)
  deriving Repr

/-- One step of the widget. -/
def stepEvent (s : ChatState) (e : Event) : ChatState :=
  match e with
  | Event.ui u => handleUIEvent s u
  | Event.draft t => setDraft s t
  | Event.submit r t1 t2 => (handleSendMessage s r t1 t2).1

/-- Run the widget over a sequence of events. -/
def run (s : ChatState) (es : List Event) : ChatState :=
  es.foldl stepEvent s

/-- Number of user messages in a store. -/
def userCount (l : List Message) : Nat :=
  (l.filter fun m => !m.isBot).length

/-- Number of assistant messages in a store. -/
def botCount (l : List Message) : Nat :=
  (l.filter fun m => m.isBot).length

/-- A concrete reachable state with a credential configured, a non-blank
draft and no send in flight. -/
def exState : ChatState :=
  { isOpen := true,
    isMinimized := false,
    message := "hi",
    isLoading := false,
    messages := [seedMessage true 0],
    isApiKeySet := true }

/-- A concrete reachable state with no credential configured. -/
def exStateNoKey : ChatState :=
  { isOpen := true,
    isMinimized := false,
    message := "hello",
    isLoading := false,
    messages := [seedMessage false 0],
    isApiKeySet := false }

/-! ## Helper lemmas -/

/-- Counting user messages distributes over append. -/
lemma userCount_append (l1 l2 : List Message) :
    userCount (l1 ++ l2) = userCount l1 + userCount l2 := by
  simp [userCount, List.filter_append]

/-- Counting assistant messages distributes over append. -/
lemma botCount_append (l1 l2 : List Message) :
    botCount (l1 ++ l2) = botCount l1 + botCount l2 := by
  simp [botCount, List.filter_append]

/-- The submission handler only ever appends to the store. -/
lemma handleSendMessage_messages_extends (s : ChatState) (result : SendResult)
    (tUser tBot : Nat) :
    ∃ tail, ((handleSendMessage s result tUser tBot).1).messages = s.messages ++ tail := by
  unfold handleSendMessage
  by_cases h : jsTrim s.message = "" ∨ s.isLoading = true
  · rw [if_pos h]
    exact ⟨[], by simp⟩
  · rw [if_neg h]
    by_cases hk : s.isApiKeySet = false
    · rw [if_pos hk]
      exact ⟨[{ text := s.message, isBot := false, timestamp := tUser },
              { text := noKeyReplyText, isBot := true, timestamp := tBot }], by simp⟩
    · rw [if_neg hk]
      cases result with
      | success c =>
          cases c with
          | none =>
              exact ⟨[{ text := s.message, isBot := false, timestamp := tUser }], by simp⟩
          | some botResponse =>
              exact ⟨[{ text := s.message, isBot := false, timestamp := tUser },
                      { text := botResponse, isBot := true, timestamp := tBot }], by simp⟩
      | failure e =>
          exact ⟨[{ text := s.message, isBot := false, timestamp := tUser },
                  { text := fallbackText, isBot := true, timestamp := tBot }], by simp⟩

/-- Every widget event only ever appends to the store. -/
lemma stepEvent_messages_extends (s : ChatState) (e : Event) :
    ∃ tail, (stepEvent s e).messages = s.messages ++ tail := by
  cases e with
  | ui u => exact ⟨[], by cases u <;> simp [stepEvent, handleUIEvent]⟩
  | draft t => exact ⟨[], by simp [stepEvent, setDraft]⟩
  | submit r t1 t2 => exact handleSendMessage_messages_extends s r t1 t2

/-- Over any event sequence the store only ever grows by appending. -/
lemma run_messages_extends (es : List Event) :
    ∀ s : ChatState, ∃ tail, (run s es).messages = s.messages ++ tail := by
  induction es with
  | nil => exact fun s => ⟨[], by simp [run]⟩
  | cons e es ih =>
      intro s
      obtain ⟨t1, h1⟩ := stepEvent_messages_extends s e
      obtain ⟨t2, h2⟩ := ih (stepEvent s e)
      refine ⟨t1 ++ t2, ?_⟩
      have hrun : run s (e :: es) = run (stepEvent s e) es := rfl
      rw [hrun, h2, h1, List.append_assoc]

/-! ## Claims -/

/-- C2: for every accepted submission with the client available, the
outbound request payload is, in order, the fixed system instruction
record, every pre-append transcript message mapped to a role/content pair
(role assistant when `isBot`, user otherwise), and one final user record
with the new text; the request carries model `gpt-3.5-turbo`, temperature
0.7 and a 500-token output cap. -/
theorem C2_request_payload (s : ChatState) (result : SendResult) (tUser tBot : Nat)
    (hmsg : jsTrim s.message ≠ "") (hload : s.isLoading = false)
    (hkey : s.isApiKeySet = true) :
    (handleSendMessage s result tUser tBot).2 =
      some { messages :=
               { role := "system", content := SYSTEM_PROMPT } ::
                 (s.messages.map fun msg =>
                     { role := if msg.isBot then "assistant" else "user",
                       content := msg.text }) ++
                 [{ role := "user", content := s.message }],
             model := "gpt-3.5-turbo",
             temperature := 0.7,
             max_tokens := 500 } := by
  simp [handleSendMessage, buildRequest, toRequestMessage, hmsg, hload, hkey]

/-- C2 witness: the payload at a concrete state. -/
theorem C2_request_payload_witness :
    (handleSendMessage exState (SendResult.success (some "4")) 1 2).2 =
      some { messages :=
               { role := "system", content := SYSTEM_PROMPT } ::
                 (exState.messages.map fun msg =>
                     { role := if msg.isBot then "assistant" else "user",
                       content := msg.text }) ++
                 [{ role := "user", content := exState.message }],
             model := "gpt-3.5-turbo",
             temperature := 0.7,
             max_tokens := 500 } :=
  C2_request_payload exState (SendResult.success (some "4")) 1 2
    (by decide) (by decide) (by decide)

/-- C3: with no credential configured, an accepted submission never issues
a request (the handler short-circuits) and appends the fixed
configuration-warning assistant message immediately after the user
message. -/
theorem C3_no_key_short_circuit (s : ChatState) (result : SendResult) (tUser tBot : Nat)
    (hmsg : jsTrim s.message ≠ "") (hload : s.isLoading = false)
    (hkey : s.isApiKeySet = false) :
    handleSendMessage s result tUser tBot =
      ({ s with
          message := "",
          messages := s.messages ++
            [{ text := s.message, isBot := false, timestamp := tUser },
             { text := noKeyReplyText, isBot := true, timestamp := tBot }] },
        none) := by
  simp [handleSendMessage, hmsg, hload, hkey]

/-- C3 witness: the short-circuit at a concrete credential-less state. -/
theorem C3_no_key_short_circuit_witness :
    handleSendMessage exStateNoKey (SendResult.failure "refused") 1 2 =
      ({ exStateNoKey with
          message := "",
          messages := exStateNoKey.messages ++
            [{ text := exStateNoKey.message, isBot := false, timestamp := 1 },
             { text := noKeyReplyText, isBot := true, timestamp := 2 }] },
        none) :=
  C3_no_key_short_circuit exStateNoKey (SendResult.failure "refused") 1 2
    (by decide) (by decide) (by decide)

/-- C4: every transport failure yields exactly one appended assistant
message whose text is the fixed fallback string; the resulting store does
not depend on the error, so the raw error never reaches any message. -/
theorem C4_transport_failure_fallback (s : ChatState) (err : String) (tUser tBot : Nat)
    (hmsg : jsTrim s.message ≠ "") (hload : s.isLoading = false)
    (hkey : s.isApiKeySet = true) :
    (handleSendMessage s (SendResult.failure err) tUser tBot).1.messages =
      s.messages ++
        [{ text := s.message, isBot := false, timestamp := tUser },
         { text := fallbackText, isBot := true, timestamp := tBot }] := by
  simp [handleSendMessage, hmsg, hload, hkey]

/-- C4 witness: the fallback append at a concrete state and error. -/
theorem C4_transport_failure_fallback_witness :
    (handleSendMessage exState (SendResult.failure "ECONNRESET") 1 2).1.messages =
      exState.messages ++
        [{ text := exState.message, isBot := false, timestamp := 1 },
         { text := fallbackText, isBot := true, timestamp := 2 }] :=
  C4_transport_failure_fallback exState "ECONNRESET" 1 2
    (by decide) (by decide) (by decide)

/-- C5: a submission while the draft trims to empty or a send is in
flight is a no-op: the whole state (store, draft, loading flag) is
unchanged and no request is issued. -/
theorem C5_guard_noop (s : ChatState) (result : SendResult) (tUser tBot : Nat)
    (h : jsTrim s.message = "" ∨ s.isLoading = true) :
    handleSendMessage s result tUser tBot = (s, none) := by
  unfold handleSendMessage
  rw [if_pos h]

/-- C5 witness: a submission attempted while a send is in flight. -/
theorem C5_guard_noop_witness :
    handleSendMessage { exState with isLoading := true }
        (SendResult.success (some "reply")) 3 4 =
      ({ exState with isLoading := true }, none) :=
  C5_guard_noop { exState with isLoading := true }
    (SendResult.success (some "reply")) 3 4 (Or.inr rfl)

/-- C7: a successful send whose response carries no content appends no
assistant message: the store gains only the user message, and the turn is
a silent no-op (no fallback), even though a request was issued. -/
theorem C7_empty_content_silent (s : ChatState) (tUser tBot : Nat)
    (hmsg : jsTrim s.message ≠ "") (hload : s.isLoading = false)
    (hkey : s.isApiKeySet = true) :
    (handleSendMessage s (SendResult.success none) tUser tBot).1.messages =
      s.messages ++ [{ text := s.message, isBot := false, timestamp := tUser }] ∧
    (handleSendMessage s (SendResult.success none) tUser tBot).2 =
      some (buildRequest s.messages s.message) := by
  constructor <;> simp [handleSendMessage, hmsg, hload, hkey]

/-- C7 witness: the silent empty-content turn at a concrete state. -/
theorem C7_empty_content_silent_witness :
    (handleSendMessage exState (SendResult.success none) 1 2).1.messages =
      exState.messages ++ [{ text := exState.message, isBot := false, timestamp := 1 }] ∧
    (handleSendMessage exState (SendResult.success none) 1 2).2 =
      some (buildRequest exState.messages exState.message) :=
  C7_empty_content_silent exState 1 2 (by decide) (by decide) (by decide)

/-- C8: no visibility transition (open, close, minimize toggle) mutates
the message store; in particular closing retains the conversation. -/
theorem C8_visibility_preserves_store (s : ChatState) (e : UIEvent) :
    (handleUIEvent s e).messages = s.messages := by
  cases e <;> rfl

/-- C1 counterexample: at a concrete accepted submission (non-blank
draft, no send in flight, credential configured) whose completion
response carries no content, exactly one user message is appended but no
assistant message is — refuting that every accepted submission eventually
gains exactly one assistant message. -/
theorem C1_counterexample :
    jsTrim exState.message ≠ "" ∧ exState.isLoading = false ∧
    userCount ((handleSendMessage exState (SendResult.success none) 1 2).1.messages) =
      userCount exState.messages + 1 ∧
    ¬ botCount ((handleSendMessage exState (SendResult.success none) 1 2).1.messages) =
        botCount exState.messages + 1 := by
  decide

/-- C1 amended: every accepted submission appends exactly one user
message, and exactly one assistant message for the turn — except when the
client is available and the send succeeds with empty content, in which
case no assistant message is appended. -/
theorem C1_turn_message_counts (s : ChatState) (result : SendResult) (tUser tBot : Nat)
    (hmsg : jsTrim s.message ≠ "") (hload : s.isLoading = false) :
    userCount ((handleSendMessage s result tUser tBot).1.messages) =
      userCount s.messages + 1 ∧
    botCount ((handleSendMessage s result tUser tBot).1.messages) =
      botCount s.messages +
        (if s.isApiKeySet = true ∧ result = SendResult.success none then 0 else 1) := by
  cases hk : s.isApiKeySet with
  | false =>
      cases result with
      | success c =>
          cases c <;>
            simp [handleSendMessage, hmsg, hload, hk, userCount, botCount, List.filter_append]
      | failure e =>
          simp [handleSendMessage, hmsg, hload, hk, userCount, botCount, List.filter_append]
  | true =>
      cases result with
      | success c =>
          cases c <;>
            simp [handleSendMessage, hmsg, hload, hk, userCount, botCount, List.filter_append]
      | failure e =>
          simp [handleSendMessage, hmsg, hload, hk, userCount, botCount, List.filter_append]

/-- C1 witness: the amended counts at a concrete failing send. -/
theorem C1_turn_message_counts_witness :
    userCount ((handleSendMessage exState (SendResult.failure "boom") 1 2).1.messages) =
      userCount exState.messages + 1 ∧
    botCount ((handleSendMessage exState (SendResult.failure "boom") 1 2).1.messages) =
      botCount exState.messages +
        (if exState.isApiKeySet = true ∧
            SendResult.failure "boom" = SendResult.success none then 0 else 1) :=
  C1_turn_message_counts exState (SendResult.failure "boom") 1 2 (by decide) (by decide)

/-- C6: the mounted store holds exactly one synthetic assistant message
whose text is the greeting when a credential is configured and the
configuration-warning otherwise, and over any event sequence that seeded
record stays the first message of the store. -/
theorem C6_seed_first_message (key : Bool) (t : Nat) (es : List Event) :
    (mountChatBot key t).messages = [seedMessage key t] ∧
    (seedMessage key t).isBot = true ∧
    (seedMessage key t).text = (if key then greetingText else seedWarningText) ∧
    (run (mountChatBot key t) es).messages.head? = some (seedMessage key t) := by
  refine ⟨rfl, rfl, rfl, ?_⟩
  obtain ⟨tail, h⟩ := run_messages_extends es (mountChatBot key t)
  rw [h]
  simp [mountChatBot]

/-- C9: the appended user message carries the raw draft string exactly as
typed (untrimmed), and whenever a request is issued its final payload
record is a user record with that same raw string. -/
theorem C9_raw_draft_sent (s : ChatState) (result : SendResult) (tUser tBot : Nat)
    (hmsg : jsTrim s.message ≠ "") (hload : s.isLoading = false) :
    (∃ rest, (handleSendMessage s result tUser tBot).1.messages =
        s.messages ++ ({ text := s.message, isBot := false, timestamp := tUser } :: rest)) ∧
    ∀ req, (handleSendMessage s result tUser tBot).2 = some req →
      req.messages.getLast? = some { role := "user", content := s.message } := by
  constructor
  · cases hk : s.isApiKeySet with
    | false =>
        exact ⟨[{ text := noKeyReplyText, isBot := true, timestamp := tBot }],
          by simp [handleSendMessage, hmsg, hload, hk]⟩
    | true =>
        cases result with
        | success c =>
            cases c with
            | none =>
                exact ⟨[], by simp [handleSendMessage, hmsg, hload, hk]⟩
            | some botResponse =>
                exact ⟨[{ text := botResponse, isBot := true, timestamp := tBot }],
                  by simp [handleSendMessage, hmsg, hload, hk]⟩
        | failure e =>
            exact ⟨[{ text := fallbackText, isBot := true, timestamp := tBot }],
              by simp [handleSendMessage, hmsg, hload, hk]⟩
  · intro req hreq
    cases hk : s.isApiKeySet with
    | false => simp [handleSendMessage, hmsg, hload, hk] at hreq
    | true =>
        have hr : req = buildRequest s.messages s.message := by
          simp [handleSendMessage, hmsg, hload, hk] at hreq
          exact hreq.symm
        rw [hr]
        simp only [buildRequest]
        rw [← List.cons_append, List.getLast?_concat]

/-- C9 witness: the raw draft reaches the store and the payload tail at a
concrete state. -/
theorem C9_raw_draft_sent_witness :
    (∃ rest, (handleSendMessage exState (SendResult.success (some "ok")) 1 2).1.messages =
        exState.messages ++
          ({ text := exState.message, isBot := false, timestamp := 1 } :: rest)) ∧
    ∀ req, (handleSendMessage exState (SendResult.success (some "ok")) 1 2).2 = some req →
      req.messages.getLast? = some { role := "user", content := exState.message } :=
  C9_raw_draft_sent exState (SendResult.success (some "ok")) 1 2 (by decide) (by decide)

/-- C10: the issued request is built from the pre-append snapshot of the
store: past the leading system record, its payload is exactly the mapped
pre-append transcript followed by one final user record holding the new
text, so the new message is neither duplicated in nor omitted from the
payload. -/
theorem C10_pre_append_snapshot (s : ChatState) (result : SendResult) (tUser tBot : Nat)
    (hmsg : jsTrim s.message ≠ "") (hload : s.isLoading = false)
    (hkey : s.isApiKeySet = true) :
    ∃ req, (handleSendMessage s result tUser tBot).2 = some req ∧
      req.messages.length = s.messages.length + 2 ∧
      (req.messages.drop 1).dropLast = s.messages.map toRequestMessage ∧
      req.messages.getLast? = some { role := "user", content := s.message } := by
  refine ⟨buildRequest s.messages s.message, ?_, ?_, ?_, ?_⟩
  · simp [handleSendMessage, hmsg, hload, hkey]
  · simp [buildRequest]
  · simp [buildRequest]
  · simp only [buildRequest]
    rw [← List.cons_append, List.getLast?_concat]

/-- C10 witness: the snapshot payload shape at a concrete state. -/
theorem C10_pre_append_snapshot_witness :
    ∃ req, (handleSendMessage exState (SendResult.failure "down") 1 2).2 = some req ∧
      req.messages.length = exState.messages.length + 2 ∧
      (req.messages.drop 1).dropLast = exState.messages.map toRequestMessage ∧
      req.messages.getLast? = some { role := "user", content := exState.message } :=
  C10_pre_append_snapshot exState (SendResult.failure "down") 1 2
    (by decide) (by decide) (by decide)

end ChatBot
